import Mathlib

set_option linter.unusedVariables false

/-!
Verification of the NotionVoxBot repository (src/lambda_handler.py and
src/bot.py), a Telegram bot that transcribes voice messages with the
Whisper API, titles them with a chat model, and stores them in Notion.

Shallow embedding conventions:
* Every external API call (Telegram file download, Whisper transcription,
  chat-model title generation, Notion page creation) is represented by an
  oracle argument of type `Except String _` giving the outcome the external
  service would produce (`Except.ok` = normal return, `Except.error` =
  raised exception, carrying the exception's string rendering).
* Each embedded operation additionally returns the list of external calls
  it performed (`Effect`), so that claims about "zero external API calls"
  are claims about that trace.
* Python dict-shaped results (`{success, error, transcript}`) are embedded
  as structures with exactly those fields.
* Python string operations are modelled over `String.data` (`List Char`),
  matching Python's code-point semantics for `len`, slicing and `strip`.
-/

/-- Python `s.strip(chars)` on the underlying character list: drop the
matching characters from the left, then from the right. -/
def pyStripList (p : Char → Bool) (l : List Char) : List Char :=
  List.rdropWhile p (l.dropWhile p)

/-- Python `s.strip(chars)` on strings. -/
def pyStrip (p : Char → Bool) (s : String) : String :=
  String.mk (pyStripList p s.data)

/-- The whitespace class of Python's no-argument `str.strip()` (ASCII part:
space, tab, newline, carriage return, vertical tab, form feed). -/
def pyIsSpace (c : Char) : Bool :=
  c == ' ' || c == '\t' || c == '\n' || c == '\r' ||
    c == Char.ofNat 11 || c == Char.ofNat 12

/-- Python slicing `s[:n]`: the first `n` characters (code points). -/
def pySlice (s : String) (n : Nat) : String :=
  String.mk (s.data.take n)

/-- Python `x or d` for an optional string `x` under Python truthiness:
`None` and the empty string are falsy. -/
def pyOrStr (x : Option String) (d : String) : String :=
  match x with
  | none => d
  | some s => if s = "" then d else s

/-- The static allow-list `ALLOWED_USER_IDS` of lambda_handler.py. -/
def ALLOWED_USER_IDS : List Int := [8314097969]

/-- `is_authorized_user` from lambda_handler.py (the username argument is
only used for logging). -/
def is_authorized_user (user_id : Int) (username : Option String) : Bool :=
  ALLOWED_USER_IDS.contains user_id

/-- The dict returned by `transcribe_audio`: keys success, error,
transcript. -/
structure TranscriptionResult where
  success : Bool
  error : Option String
  transcript : Option String
deriving DecidableEq

/-- The dict returned by `create_voice_memo_page`: keys success, error,
page_url. -/
structure RecordResult where
  success : Bool
  error : Option String
  page_url : Option String
deriving DecidableEq

/-- The four properties of the Notion page built by
`create_voice_memo_page` (Title, Transcript, Duration, Source). -/
structure NotionPage where
  title : String
  transcript : String
  duration : Int
  source : String
deriving DecidableEq

/-- One external call performed during a run, or one user-visible
message. `downloadCall` covers the Telegram `get_file` +
`download_to_drive` pair. -/
inductive Effect where
  | sendMessage : String → Effect
  | editMessage : String → Effect
  | downloadCall : Effect
  | whisperCall : Effect
  | titleModelCall : Effect
  | notionCreateCall : Effect
deriving DecidableEq

/-- `WhisperTranscriber.transcribe_audio` of lambda_handler.py.
`configured` is whether `OPENAI_API_KEY` was set (`self.client`);
`whisper` is the outcome of the Whisper API call. -/
def transcribe_audio (configured : Bool) (whisper : Except String String) :
    TranscriptionResult × List Effect :=
  if configured = false then
    (⟨false, some "OpenAI API key not configured", none⟩, [])
  else
    match whisper with
    | Except.ok t => (⟨true, none, some t⟩, [Effect.whisperCall])
    | Except.error e => (⟨false, some e, none⟩, [Effect.whisperCall])

/-- `WhisperTranscriber.transcribe_audio` of bot.py: the path always ends
in `.oga` in a bot.py run, so `convert_oga_to_mp3` is always attempted
first; a conversion exception (local pydub/ffmpeg work, not an external
API call) propagates into the surrounding `try` and becomes a failure
dict. -/
def bot_transcribe (configured : Bool) (convert : Except String Unit)
    (whisper : Except String String) : TranscriptionResult × List Effect :=
  if configured = false then
    (⟨false, some "OpenAI API key not configured", none⟩, [])
  else
    match convert with
    | Except.error e => (⟨false, some e, none⟩, [])
    | Except.ok _ =>
      match whisper with
      | Except.ok t => (⟨true, none, some t⟩, [Effect.whisperCall])
      | Except.error e => (⟨false, some e, none⟩, [Effect.whisperCall])

/-- The truncation fallback of `generate_ai_title`:
`transcript[:50] + "..." if len(transcript) > 50 else transcript`. -/
def fallback_title (transcript : String) : String :=
  if transcript.length > 50 then pySlice transcript 50 ++ "..." else transcript

/-- `NotionIntegrator.generate_ai_title`. `openaiConfigured` is whether
`self.openai_client` is set; `chat` is the outcome of the chat-completions
call (the first choice's message content). The AI branch strips
whitespace, then double quotes, then single quotes, and caps the result at
100 characters. -/
def generate_ai_title (openaiConfigured : Bool) (chat : Except String String)
    (transcript : String) : String × List Effect :=
  if openaiConfigured = false then
    (fallback_title transcript, [])
  else
    match chat with
    | Except.ok content =>
      let title := pyStrip pyIsSpace content
      let title := pyStrip (fun c => c == Char.ofNat 34) title
      let title := pyStrip (fun c => c == Char.ofNat 39) title
      (if title.length > 100 then pySlice title 97 ++ "..." else title,
        [Effect.titleModelCall])
    | Except.error _ => (fallback_title transcript, [Effect.titleModelCall])

/-- `NotionIntegrator.create_voice_memo_page`. `notionConfigured` is
whether `self.client` is set (NOTION_TOKEN and NOTION_DATABASE_ID both
present); `pages` is the outcome of `self.client.pages.create` (the
page URL on success). Besides the result dict it returns the page data
submitted to Notion (when the client is configured) and the external
calls performed. -/
def create_voice_memo_page (notionConfigured : Bool) (openaiConfigured : Bool)
    (chat : Except String String) (pages : Except String String)
    (transcript : String) (duration : Int) (user_name : String) :
    RecordResult × Option NotionPage × List Effect :=
  if notionConfigured = false then
    (⟨false, some "Notion client not configured", none⟩, none, [])
  else
    let tp := generate_ai_title openaiConfigured chat transcript
    let title :=
      if pyStrip pyIsSpace tp.1 = "" then "Voice memo from " ++ user_name
      else tp.1
    let page : NotionPage := ⟨title, transcript, duration, "Telegram"⟩
    match pages with
    | Except.ok url =>
      (⟨true, none, some url⟩, some page, tp.2 ++ [Effect.notionCreateCall])
    | Except.error e =>
      (⟨false, some e, none⟩, some page, tp.2 ++ [Effect.notionCreateCall])

/-- The sender of a Telegram message (`update.message.from_user`). -/
structure MsgUser where
  id : Int
  username : Option String
  first_name : String
  last_name : Option String

/-- The voice payload of a Telegram message. -/
structure MsgVoice where
  duration : Int
  file_size : Int

/-- Per-run data that the handlers render into messages: the formatted
receipt date, the filename timestamp, and the downloaded file's size. -/
structure RunData where
  dateStr : String
  timestamp : String
  actual_file_size : Int

/-- Which environment credentials are set. -/
structure EnvConfig where
  openai_key : Bool
  notion_token : Bool
  notion_db : Bool

/-- The outcomes of the external calls a run would perform. -/
structure CallOracles where
  download : Except String Unit
  convert : Except String Unit
  whisper : Except String String
  chat : Except String String
  pages : Except String String

def unauthorized_voice_reply : String :=
  "🚫 Unauthorized access. This bot is private."

def unauthorized_text_reply : String :=
  "🚫 Unauthorized access. This bot is private.\n\nUse /myid to see your user ID for access."

def generic_voice_error_reply : String :=
  "❌ Sorry, there was an error processing your voice message. Please try again."

/-- `f"{user.first_name} {user.last_name or ''}".strip()`. -/
def user_display_name (user : MsgUser) : String :=
  pyStrip pyIsSpace (user.first_name ++ " " ++ pyOrStr user.last_name "")

/-- `f"voice_{user.id}_{timestamp}.oga"`. -/
def voice_filename (user : MsgUser) (timestamp : String) : String :=
  "voice_" ++ toString user.id ++ "_" ++ timestamp ++ ".oga"

/-- The receipt-details block shared by the initial and the
transcription-failure messages. -/
def receipt_block (un : String) (dur size : Int) (fn dateStr : String) : String :=
  "✅ Voice message received!\n\n👤 From: " ++ un ++ "\n⏱️ Duration: " ++
    toString dur ++ " seconds\n📁 File size: " ++ toString size ++
    " bytes\n💾 Saved as: " ++ fn ++ "\n📅 Received at: " ++ dateStr ++ "\n\n"

/-- The interim status message sent after the download. -/
def initial_response (un : String) (dur size : Int) (fn dateStr : String) : String :=
  receipt_block un dur size fn dateStr ++ "🔄 Transcribing audio..."

/-- The message the interim status is edited to when transcription fails. -/
def error_response (un : String) (dur size : Int) (fn dateStr : String)
    (err : String) : String :=
  receipt_block un dur size fn dateStr ++ "❌ Transcription failed: " ++ err

/-- The success message body ending in the transcript (before the Notion
status suffix is appended). -/
def processed_response (un : String) (dur size : Int) (fn dateStr : String)
    (t : String) : String :=
  "✅ Voice message processed!\n\n👤 From: " ++ un ++ "\n⏱️ Duration: " ++
    toString dur ++ " seconds\n📁 File size: " ++ toString size ++
    " bytes\n💾 Saved as: " ++ fn ++ "\n📅 Received at: " ++ dateStr ++
    "\n\n📝 **Transcript:**\n" ++ t

def notion_saved_suffix (url : String) : String :=
  "\n\n📔 **Saved to Notion:** [View Page](" ++ url ++ ")"

def notion_failed_suffix (err : String) : String :=
  "\n\n⚠️ **Notion save failed:** " ++ err

/-- `NotionVoxBot.handle_voice_message` of lambda_handler.py, as the trace
of external calls and user-visible messages of one run. The outer
`try/except` turns a download exception into the generic apology reply. -/
def handle_voice_message (cfg : EnvConfig) (ext : CallOracles) (user : MsgUser)
    (voice : MsgVoice) (run : RunData) : List Effect :=
  if is_authorized_user user.id user.username = false then
    [Effect.sendMessage unauthorized_voice_reply]
  else
    match ext.download with
    | Except.error _ =>
      [Effect.downloadCall, Effect.sendMessage generic_voice_error_reply]
    | Except.ok _ =>
      let un := user_display_name user
      let fn := voice_filename user run.timestamp
      let tp := transcribe_audio cfg.openai_key ext.whisper
      let pre := [Effect.downloadCall,
        Effect.sendMessage
          (initial_response un voice.duration run.actual_file_size fn run.dateStr)]
        ++ tp.2
      if tp.1.success then
        let transcript := tp.1.transcript.getD ""
        let np := create_voice_memo_page (cfg.notion_token && cfg.notion_db)
          ((cfg.notion_token && cfg.notion_db) && cfg.openai_key)
          ext.chat ext.pages transcript voice.duration un
        let final :=
          processed_response un voice.duration run.actual_file_size fn run.dateStr
            transcript ++
          (if np.1.success then notion_saved_suffix (np.1.page_url.getD "")
           else notion_failed_suffix (np.1.error.getD ""))
        pre ++ np.2.2 ++ [Effect.editMessage final]
      else
        pre ++ [Effect.editMessage
          (error_response un voice.duration run.actual_file_size fn run.dateStr
            (tp.1.error.getD ""))]

/-- `NotionVoxBot.handle_voice` of bot.py: the same pipeline but with no
authorization check and with the OGA→MP3 conversion inside
transcription. -/
def bot_handle_voice (cfg : EnvConfig) (ext : CallOracles) (user : MsgUser)
    (voice : MsgVoice) (run : RunData) : List Effect :=
  match ext.download with
  | Except.error _ =>
    [Effect.downloadCall, Effect.sendMessage generic_voice_error_reply]
  | Except.ok _ =>
    let un := user_display_name user
    let fn := voice_filename user run.timestamp
    let tp := bot_transcribe cfg.openai_key ext.convert ext.whisper
    let pre := [Effect.downloadCall,
      Effect.sendMessage
        (initial_response un voice.duration run.actual_file_size fn run.dateStr)]
      ++ tp.2
    if tp.1.success then
      let transcript := tp.1.transcript.getD ""
      let np := create_voice_memo_page (cfg.notion_token && cfg.notion_db)
        ((cfg.notion_token && cfg.notion_db) && cfg.openai_key)
        ext.chat ext.pages transcript voice.duration un
      let final :=
        processed_response un voice.duration run.actual_file_size fn run.dateStr
          transcript ++
        (if np.1.success then notion_saved_suffix (np.1.page_url.getD "")
         else notion_failed_suffix (np.1.error.getD ""))
      pre ++ np.2.2 ++ [Effect.editMessage final]
    else
      pre ++ [Effect.editMessage
        (error_response un voice.duration run.actual_file_size fn run.dateStr
          (tp.1.error.getD ""))]

/-- The `/myid` reply of `handle_text_message`. Note the Python source
applies `.strip()` to the concatenation of the first two f-string
literals (up to the rendered name) before appending the rest. -/
def myid_response (user : MsgUser) : String :=
  pyStrip pyIsSpace
    ("🆔 **Your Telegram User Info:**\n\n👤 Name: " ++ user.first_name ++ " " ++
      pyOrStr user.last_name "") ++
  ("\n📛 Username: @" ++ pyOrStr user.username "None" ++ "\n🔢 User ID: `" ++
    toString user.id ++
    "`\n\n*Add your User ID to the ALLOWED_USER_IDS set in the code to gain access.*")

def welcome_reply : String :=
  "🎤 Welcome to NotionVoxBot!\n\nSend me a voice message and I\x27ll:\n• Log detailed information about it\n• Transcribe it using OpenAI Whisper\n• Generate an AI-powered title (3-8 words)\n• Save to your Notion database with smart title\n• Save the audio file locally\n\nUse /help for more information."

def help_reply : String :=
  "🤖 NotionVoxBot Commands:\n\n/start - Start the bot\n/help - Show this help message\n\n📝 How to use:\n• Send a voice message to analyze it\n• The bot will download the audio file\n• Voice will be transcribed using OpenAI Whisper\n• AI generates a smart title (3-8 words)\n• Everything gets saved to your Notion database\n• You\x27ll receive the transcript and Notion link\n\n✅ Current features:\n• Voice message logging and analysis\n• Automatic transcription with OpenAI Whisper\n• **AI-generated smart titles using GPT-4o-mini**\n• Direct OGA audio file processing\n• **Full Notion integration with organized data**\n\n🚀 Future features:\n• Enhanced Notion formatting and organization\n• Multiple database support"

def prompt_reply : String :=
  "🎤 Please send me a voice message to log its details!\nUse /help for more information."

/-- `NotionVoxBot.handle_text_message` of lambda_handler.py: `/myid` is
answered before the authorization check; everything else is gated. -/
def handle_text_message (user : MsgUser) (text : String) : List Effect :=
  if text = "/myid" then
    [Effect.sendMessage (myid_response user)]
  else if is_authorized_user user.id user.username = false then
    [Effect.sendMessage unauthorized_text_reply]
  else if text = "/start" then
    [Effect.sendMessage welcome_reply]
  else if text = "/help" then
    [Effect.sendMessage help_reply]
  else
    [Effect.sendMessage prompt_reply]

theorem string_length_data (s : String) : s.length = s.data.length := rfl

/-- C9: `is_authorized_user(user_id, username)` returns True iff
`user_id = 8314097969`; the allow-list holds exactly that one identity and
the username argument never influences the result. -/
theorem C9_allowlist_single (uid : Int) (u1 u2 : Option String) :
    (is_authorized_user uid u1 = true ↔ uid = 8314097969) ∧
    is_authorized_user uid u1 = is_authorized_user uid u2 := by
  refine ⟨?_, rfl⟩
  simp [is_authorized_user, ALLOWED_USER_IDS, List.contains]

theorem fallback_title_length (t : String) : (fallback_title t).length ≤ 100 := by
  unfold fallback_title
  split
  · rw [String.length_append]
    have h1 : (pySlice t 50).length ≤ 50 := by
      simp only [pySlice, String.length_mk, List.length_take]
      omega
    have h2 : ("..." : String).length = 3 := rfl
    omega
  · rename_i h
    omega

theorem title_cap_length (s : String) :
    (if s.length > 100 then pySlice s 97 ++ "..." else s).length ≤ 100 := by
  split
  · rw [String.length_append]
    have h1 : (pySlice s 97).length ≤ 97 := by
      simp only [pySlice, String.length_mk, List.length_take]
      omega
    have h2 : ("..." : String).length = 3 := rfl
    omega
  · rename_i h
    omega

/-- C2: `generate_ai_title` never raises (it is a total function of the
transcript and the modelled call outcome) and always returns a string of
length at most 100; when the chat model is unconfigured or its call
fails, it returns exactly the fallback truncation form. -/
theorem C2_title_total_bounded (c : Bool) (chat : Except String String)
    (t e : String) :
    (generate_ai_title c chat t).1.length ≤ 100 ∧
    (generate_ai_title false chat t).1 = fallback_title t ∧
    (generate_ai_title true (Except.error e) t).1 = fallback_title t := by
  refine ⟨?_, rfl, rfl⟩
  cases c with
  | false => exact fallback_title_length t
  | true =>
    cases chat with
    | error e => exact fallback_title_length t
    | ok content => exact title_cap_length _

/-- C3: with no chat-model credential configured, a transcript longer
than 50 characters is titled with exactly its first 50 characters
followed by an ellipsis. -/
theorem C3_fallback_exact (t : String) (chat : Except String String)
    (h : t.length > 50) :
    (generate_ai_title false chat t).1 = pySlice t 50 ++ "..." := by
  simp [generate_ai_title, fallback_title, h]

def title_probe : String := String.mk (List.replicate 51 'a')

theorem C3_witness :
    title_probe.length > 50 ∧
    (generate_ai_title false (Except.ok "x") title_probe).1 =
      pySlice title_probe 50 ++ "..." := by
  refine ⟨?_, C3_fallback_exact title_probe (Except.ok "x") ?_⟩ <;>
    simp [title_probe, string_length_data]

/-- C10: `transcribe_audio` (both variants) never raises and always
returns a dict with exactly the keys success, error, transcript, in which
the error is None exactly when success is True and the transcript is
present exactly when success is True (hence None on every failure). -/
theorem C10_transcribe_shape (c : Bool) (conv : Except String Unit)
    (w : Except String String) :
    (( transcribe_audio c w).1.error.isNone = ( transcribe_audio c w).1.success ∧
      ( transcribe_audio c w).1.transcript.isSome = ( transcribe_audio c w).1.success) ∧
    ((bot_transcribe c conv w).1.error.isNone = (bot_transcribe c conv w).1.success ∧
      (bot_transcribe c conv w).1.transcript.isSome = (bot_transcribe c conv w).1.success) := by
  cases c <;> cases conv <;> cases w <;>
    simp [ transcribe_audio, bot_transcribe]

/-- C6 (amended): when the relevant credential is unset, the transcriber
and the record store return their failure dicts immediately — no external
call is performed and no title is derived — but the failure reasons are
the code's literal messages "OpenAI API key not configured" and
"Notion client not configured", not the bare string "not configured". -/
theorem C6_unconfigured_immediate (w chat pages : Except String String)
    (oc : Bool) (t : String) (d : Int) (u : String) :
    transcribe_audio false w =
      (⟨false, some "OpenAI API key not configured", none⟩, []) ∧
    create_voice_memo_page false oc chat pages t d u =
      (⟨false, some "Notion client not configured", none⟩, none, []) := by
  exact ⟨rfl, rfl⟩

/-- C6 counterexample: the failure reason returned with the credential
unset is not the literal string "not configured" claimed by the spec. -/
theorem C6_reason_counterexample :
    ( transcribe_audio false (Except.ok "x")).1.error ≠ some "not configured" ∧
    (create_voice_memo_page false true (Except.ok "x") (Except.ok "y")
        "note" 1 "Jon").1.error ≠ some "not configured" := by
  exact ⟨by decide, by decide⟩

/-- C7 (amended): every record submitted to the store carries exactly the
four fields title, transcript, duration and source, with the given
transcript and duration, and its source label is the constant
"Telegram" (not "chat-app"). -/
theorem C7_record_fields (nc oc : Bool) (chat pages : Except String String)
    (t : String) (d : Int) (u : String) (page : NotionPage)
    (h : (create_voice_memo_page nc oc chat pages t d u).2.1 = some page) :
    page.source = "Telegram" ∧ page.transcript = t ∧ page.duration = d := by
  cases nc with
  | false => simp [create_voice_memo_page] at h
  | true =>
    cases pages with
    | ok url =>
      simp [create_voice_memo_page] at h
      cases h
      exact ⟨rfl, rfl, rfl⟩
    | error e =>
      simp [create_voice_memo_page] at h
      cases h
      exact ⟨rfl, rfl, rfl⟩

theorem C7_witness :
    (create_voice_memo_page true false (Except.ok "x") (Except.ok "u")
        "note" 7 "Jon").2.1 = some (⟨"note", "note", 7, "Telegram"⟩ : NotionPage) ∧
    (⟨"note", "note", 7, "Telegram"⟩ : NotionPage).source = "Telegram" ∧
    (⟨"note", "note", 7, "Telegram"⟩ : NotionPage).transcript = "note" ∧
    (⟨"note", "note", 7, "Telegram"⟩ : NotionPage).duration = 7 := by
  refine ⟨by decide, ?_⟩
  exact C7_record_fields true false (Except.ok "x") (Except.ok "u")
    "note" 7 "Jon" ⟨"note", "note", 7, "Telegram"⟩ (by decide)

/-- C7 counterexample: a concrete created record has source label
"Telegram", not the "chat-app" constant stated by the claim. -/
theorem C7_source_counterexample :
    (create_voice_memo_page true false (Except.ok "x") (Except.ok "u")
        "memo" 3 "Jon").2.1 = some (⟨"memo", "memo", 3, "Telegram"⟩ : NotionPage) ∧
    ("Telegram" : String) ≠ "chat-app" := by
  exact ⟨by decide, by decide⟩

theorem transcribe_effects (c : Bool) (w : Except String String) :
    ( transcribe_audio c w).2 = [] ∨ ( transcribe_audio c w).2 = [Effect.whisperCall] := by
  cases c <;> cases w <;> simp [ transcribe_audio]

theorem bot_transcribe_effects (c : Bool) (conv : Except String Unit)
    (w : Except String String) :
    (bot_transcribe c conv w).2 = [] ∨ (bot_transcribe c conv w).2 = [Effect.whisperCall] := by
  cases c <;> cases conv <;> cases w <;> simp [bot_transcribe]

/-- C1 (amended): in the webhook pipeline of lambda_handler.py, a voice
message from any identity outside the allow-list produces exactly one
user-visible message — the fixed unauthorized reply — and none of the
external calls (download, transcription, title model, record store) is
performed. (The claim as stated over every pipeline run fails: the
polling variant bot.py `handle_voice` has no authorization gate, see the
counterexample.) -/
theorem C1_lambda_unauthorized (cfg : EnvConfig) (ext : CallOracles)
    (user : MsgUser) (voice : MsgVoice) (run : RunData)
    (h : is_authorized_user user.id user.username = false) :
    handle_voice_message cfg ext user voice run =
      [Effect.sendMessage unauthorized_voice_reply] ∧
    Effect.downloadCall ∉ handle_voice_message cfg ext user voice run ∧
    Effect.whisperCall ∉ handle_voice_message cfg ext user voice run ∧
    Effect.titleModelCall ∉ handle_voice_message cfg ext user voice run ∧
    Effect.notionCreateCall ∉ handle_voice_message cfg ext user voice run := by
  have e : handle_voice_message cfg ext user voice run =
      [Effect.sendMessage unauthorized_voice_reply] := by
    unfold handle_voice_message
    simp [h]
  refine ⟨e, ?_, ?_, ?_, ?_⟩ <;> simp [e]

def cfg_all : EnvConfig := ⟨true, true, true⟩

def cfg_no_key : EnvConfig := ⟨false, true, true⟩

def ext_all : CallOracles :=
  ⟨Except.ok (), Except.ok (), Except.ok "hello world", Except.ok "A Title",
    Except.ok "u1"⟩

def eve : MsgUser := ⟨0, none, "Eve", none⟩

def jon : MsgUser := ⟨8314097969, some "stratovate", "Jon", none⟩

def voice_probe : MsgVoice := ⟨3, 10⟩

def run_probe : RunData := ⟨"d", "ts", 10⟩

theorem C1_witness :
    is_authorized_user eve.id eve.username = false ∧
    (handle_voice_message cfg_all ext_all eve voice_probe run_probe =
        [Effect.sendMessage unauthorized_voice_reply] ∧
      Effect.downloadCall ∉ handle_voice_message cfg_all ext_all eve voice_probe run_probe ∧
      Effect.whisperCall ∉ handle_voice_message cfg_all ext_all eve voice_probe run_probe ∧
      Effect.titleModelCall ∉ handle_voice_message cfg_all ext_all eve voice_probe run_probe ∧
      Effect.notionCreateCall ∉ handle_voice_message cfg_all ext_all eve voice_probe run_probe) :=
  ⟨by decide,
    C1_lambda_unauthorized cfg_all ext_all eve voice_probe run_probe (by decide)⟩

/-- C1 counterexample: in bot.py's `handle_voice` there is no
authorization gate, so a run for the unauthorized identity 0 downloads
the file, calls the transcription and record-store APIs, and never sends
the fixed unauthorized message. -/
theorem C1_bot_gate_counterexample :
    is_authorized_user eve.id eve.username = false ∧
    Effect.downloadCall ∈ bot_handle_voice cfg_all ext_all eve voice_probe run_probe ∧
    Effect.whisperCall ∈ bot_handle_voice cfg_all ext_all eve voice_probe run_probe ∧
    Effect.notionCreateCall ∈ bot_handle_voice cfg_all ext_all eve voice_probe run_probe ∧
    Effect.sendMessage unauthorized_voice_reply ∉
      bot_handle_voice cfg_all ext_all eve voice_probe run_probe := by
  refine ⟨by decide, ?_, ?_, ?_, ?_⟩ <;> decide

/-- C4: whenever the transcriber reports failure (success = False), the
record-store operation is never invoked in that run — in the webhook
pipeline and in the polling pipeline alike. -/
theorem C4_no_store_on_transcribe_failure (cfg : EnvConfig) (ext : CallOracles)
    (user : MsgUser) (voice : MsgVoice) (run : RunData)
    (h1 : ( transcribe_audio cfg.openai_key ext.whisper).1.success = false)
    (h2 : (bot_transcribe cfg.openai_key ext.convert ext.whisper).1.success = false) :
    Effect.notionCreateCall ∉ handle_voice_message cfg ext user voice run ∧
    Effect.notionCreateCall ∉ bot_handle_voice cfg ext user voice run := by
  constructor
  · simp only [handle_voice_message]
    split
    · simp
    · split
      · simp
      · rw [if_neg (by simp [h1])]
        rcases transcribe_effects cfg.openai_key ext.whisper with h | h <;>
          simp [h]
  · simp only [bot_handle_voice]
    split
    · simp
    · rw [if_neg (by simp [h2])]
      rcases bot_transcribe_effects cfg.openai_key ext.convert ext.whisper with h | h <;>
        simp [h]

theorem C4_witness :
    ( transcribe_audio cfg_no_key.openai_key ext_all.whisper).1.success = false ∧
    (bot_transcribe cfg_no_key.openai_key ext_all.convert ext_all.whisper).1.success = false ∧
    (Effect.notionCreateCall ∉ handle_voice_message cfg_no_key ext_all jon voice_probe run_probe ∧
      Effect.notionCreateCall ∉ bot_handle_voice cfg_no_key ext_all jon voice_probe run_probe) :=
  ⟨by decide, by decide,
    C4_no_store_on_transcribe_failure cfg_no_key ext_all jon voice_probe run_probe
      (by decide) (by decide)⟩

theorem rdropWhile_append_left (p : Char → Bool) (xs ys : List Char)
    (h : ∃ x ∈ ys, p x = false) :
    List.rdropWhile p (xs ++ ys) = xs ++ List.rdropWhile p ys := by
  obtain ⟨x, hx, hpx⟩ := h
  rw [List.rdropWhile, List.rdropWhile, List.reverse_append, List.dropWhile_append]
  have hne : ¬ (ys.reverse.dropWhile p).isEmpty := by
    rw [List.isEmpty_eq_true]
    intro hnil
    have := List.dropWhile_eq_nil_iff.mp hnil x (List.mem_reverse.mpr hx)
    simp [hpx] at this
  rw [if_neg hne, List.reverse_append, List.reverse_reverse]

theorem rdropWhile_cons_neg (p : Char → Bool) (c : Char) (l : List Char)
    (h : p c = false) :
    List.rdropWhile p (c :: l) = c :: List.rdropWhile p l := by
  by_cases hl : ∀ x ∈ l, p x = true
  · have h1 : List.rdropWhile p l = [] := by
      rw [List.rdropWhile_eq_nil_iff]
      intro x hx
      exact hl x hx
    have h2 : l.reverse.dropWhile p = [] := by
      rw [List.dropWhile_eq_nil_iff]
      intro x hx
      exact hl x (List.mem_reverse.mp hx)
    rw [h1, List.rdropWhile]
    rw [show (c :: l).reverse = l.reverse ++ [c] from by simp]
    rw [List.dropWhile_append, h2]
    simp [h]
  · push_neg at hl
    obtain ⟨x, hx, hpx⟩ := hl
    have := rdropWhile_append_left p [c] l ⟨x, hx, by simpa using hpx⟩
    simpa using this

theorem strip_cons (p : Char → Bool) (c : Char) (l : List Char) (h : p c = false) :
    pyStripList p (c :: l) = c :: List.rdropWhile p l := by
  unfold pyStripList
  rw [List.dropWhile_cons_of_neg (by simp [h]), rdropWhile_cons_neg p c l h]

theorem rdropWhile_strip (p : Char → Bool) (ys : List Char) :
    ∃ W, List.rdropWhile p ys = W ++ pyStripList p ys := by
  cases hY : ys.dropWhile p with
  | nil =>
    have hall : ∀ x ∈ ys, p x = true := by
      intro x hx
      exact List.dropWhile_eq_nil_iff.mp hY x hx
    have h1 : pyStripList p ys = [] := by
      unfold pyStripList
      rw [hY]
      rfl
    have h2 : List.rdropWhile p ys = [] := by
      rw [List.rdropWhile_eq_nil_iff]
      intro x hx
      exact hall x hx
    exact ⟨[], by rw [h1, h2]; rfl⟩
  | cons c rest =>
    have hc : p c = false := by
      have hh := List.head?_dropWhile_not p ys
      rw [hY] at hh
      simpa using hh
    have hsplit : ys.takeWhile p ++ (c :: rest) = ys := by
      rw [← hY]
      exact List.takeWhile_append_dropWhile p ys
    have hstep : List.rdropWhile p ys =
        ys.takeWhile p ++ List.rdropWhile p (c :: rest) := by
      conv_lhs => rw [← hsplit]
      exact rdropWhile_append_left p _ _ ⟨c, List.mem_cons_self c rest, hc⟩
    refine ⟨ys.takeWhile p, ?_⟩
    rw [hstep]
    have : pyStripList p ys = List.rdropWhile p (c :: rest) := by
      unfold pyStripList
      rw [hY]
    rw [this]

theorem rdropWhile_append_strip (p : Char → Bool) (xs ys : List Char) :
    ∃ A, List.rdropWhile p (xs ++ ys) = A ++ pyStripList p ys := by
  by_cases hall : ∀ x ∈ ys, p x = true
  · have h0 : ys.dropWhile p = [] := by
      rw [List.dropWhile_eq_nil_iff]
      intro x hx
      exact hall x hx
    have h1 : pyStripList p ys = [] := by
      unfold pyStripList
      rw [h0]
      rfl
    exact ⟨List.rdropWhile p (xs ++ ys), by rw [h1, List.append_nil]⟩
  · push_neg at hall
    obtain ⟨x, hx, hpx⟩ := hall
    rw [rdropWhile_append_left p xs ys ⟨x, hx, by simpa using hpx⟩]
    obtain ⟨W, hW⟩ := rdropWhile_strip p ys
    exact ⟨xs ++ W, by rw [hW, List.append_assoc]⟩

theorem str_contains_intro (s t : String) (x y : List Char)
    (h : s.data = x ++ t.data ++ y) : ∃ a b, s = a ++ t ++ b := by
  refine ⟨String.mk x, String.mk y, String.ext ?_⟩
  simpa [String.data_append] using h

theorem head_cons_decomp {l : List Char} {c : Char} (h : l.head? = some c) :
    l = c :: l.tail := by
  cases l with
  | nil => simp at h
  | cons a as =>
    simp only [List.head?_cons, Option.some.injEq] at h
    subst h
    rfl

/-- C8: for every sender identity — authorized or not — the `/myid`
command bypasses the authorization gate: its only effect is one reply,
that reply contains the sender's numeric platform ID and display name,
and neither fixed unauthorized message is ever that reply. -/
theorem C8_myid_gate_skip (user : MsgUser) :
    handle_text_message user "/myid" = [Effect.sendMessage (myid_response user)] ∧
    (∃ a b, myid_response user = a ++ toString user.id ++ b) ∧
    (∃ a b, myid_response user = a ++ user_display_name user ++ b) ∧
    myid_response user ≠ unauthorized_voice_reply ∧
    myid_response user ≠ unauthorized_text_reply := by
  obtain ⟨A, hA⟩ := rdropWhile_append_strip pyIsSpace
    ("🆔 **Your Telegram User Info:**\n\n👤 Name: " : String).data.tail
    (user.first_name ++ " " ++ pyOrStr user.last_name "").data
  have hARG : ("🆔 **Your Telegram User Info:**\n\n👤 Name: " ++ user.first_name ++
      " " ++ pyOrStr user.last_name "").data =
      '🆔' :: (("🆔 **Your Telegram User Info:**\n\n👤 Name: " : String).data.tail ++
        (user.first_name ++ " " ++ pyOrStr user.last_name "").data) := by
    simp [String.data_append, List.append_assoc]
  have h1 : (pyStrip pyIsSpace ("🆔 **Your Telegram User Info:**\n\n👤 Name: " ++
      user.first_name ++ " " ++ pyOrStr user.last_name "")).data =
      '🆔' :: (A ++ (user_display_name user).data) := by
    show pyStripList pyIsSpace _ = _
    rw [hARG, strip_cons _ _ _ (by decide), hA]
    rfl
  have hdata : (myid_response user).data =
      ('🆔' :: (A ++ (user_display_name user).data)) ++
      ("\n📛 Username: @" ++ pyOrStr user.username "None" ++ "\n🔢 User ID: `" ++
        toString user.id ++
        "`\n\n*Add your User ID to the ALLOWED_USER_IDS set in the code to gain access.*").data := by
    show (pyStrip pyIsSpace ("🆔 **Your Telegram User Info:**\n\n👤 Name: " ++
        user.first_name ++ " " ++ pyOrStr user.last_name "") ++
      ("\n📛 Username: @" ++ pyOrStr user.username "None" ++ "\n🔢 User ID: `" ++
        toString user.id ++
        "`\n\n*Add your User ID to the ALLOWED_USER_IDS set in the code to gain access.*")).data = _
    rw [String.data_append, h1]
  have hhead : (myid_response user).data.head? = some '🆔' := by
    rw [hdata]
    rfl
  refine ⟨?_, ?_, ?_, ?_, ?_⟩
  · simp [handle_text_message]
  · apply str_contains_intro _ _
      ((pyStrip pyIsSpace ("🆔 **Your Telegram User Info:**\n\n👤 Name: " ++
        user.first_name ++ " " ++ pyOrStr user.last_name "")).data ++
        (("\n📛 Username: @" : String).data ++ ((pyOrStr user.username "None").data ++
          ("\n🔢 User ID: `" : String).data)))
      ("`\n\n*Add your User ID to the ALLOWED_USER_IDS set in the code to gain access.*" : String).data
    show (pyStrip pyIsSpace ("🆔 **Your Telegram User Info:**\n\n👤 Name: " ++
        user.first_name ++ " " ++ pyOrStr user.last_name "") ++
      ("\n📛 Username: @" ++ pyOrStr user.username "None" ++ "\n🔢 User ID: `" ++
        toString user.id ++
        "`\n\n*Add your User ID to the ALLOWED_USER_IDS set in the code to gain access.*")).data = _
    simp [String.data_append, List.append_assoc]
  · apply str_contains_intro _ _ ('🆔' :: A)
      ("\n📛 Username: @" ++ pyOrStr user.username "None" ++ "\n🔢 User ID: `" ++
        toString user.id ++
        "`\n\n*Add your User ID to the ALLOWED_USER_IDS set in the code to gain access.*").data
    rw [hdata]
    simp [List.append_assoc]
  · intro heq
    have h5 : some '🆔' = unauthorized_voice_reply.data.head? := by
      rw [← hhead, heq]
    exact absurd h5 (by decide)
  · intro heq
    have h5 : some '🆔' = unauthorized_text_reply.data.head? := by
      rw [← hhead, heq]
    exact absurd h5 (by decide)

